import Mathlib

/-!
Verification development for the `deteccion_de_objetos` repository
(two Streamlit object-detection demos: `streamlit_app.py` and `app.py`).

The sources are shallowly embedded:
* the detector's output is a list of `RawDetection` records (class id,
  confidence, integer box coordinates after Python's `map(int, ...)`);
* the confidence score is held in hundredths (a natural number), which
  models exactly the part of the float that the two programs ever use:
  the text produced by `f"{conf:.2f}"`;
* Python `dict`s are embedded as insertion-ordered association lists;
* pixel images are lists of rows of RGB pixels; `cv2.cvtColor` with
  `COLOR_RGB2BGR` / `COLOR_BGR2RGB` swaps the first and third channel;
* the external drawing primitives of PIL / cv2 are an arbitrary function
  `drawPrim : Image → DrawCmd → Image`; the repository's own code only
  decides which `DrawCmd`s are emitted, on which buffer, in which order.
-/

namespace DeteccionObjetos

/-- An RGB pixel (channel values 0–255). -/
structure Pixel where
  r : Nat
  g : Nat
  b : Nat
deriving DecidableEq, Repr

/-- A pixel image: a list of rows. -/
abbrev Image := List (List Pixel)

/-- `cv2.cvtColor(..., COLOR_RGB2BGR)` and `COLOR_BGR2RGB` both swap the
first and third channel of every pixel. -/
def Pixel.swapRB (p : Pixel) : Pixel :=
  ⟨p.b, p.g, p.r⟩

/-- Channel-swapping an entire image (the model of `cv2.cvtColor` for the
two conversions the sources use). -/
def cvtColor (img : Image) : Image :=
  img.map (List.map Pixel.swapRB)

/-- One raw detection as produced by the detector: COCO class id,
confidence in hundredths, and the box corners after `map(int, box.xyxy[0])`. -/
structure RawDetection where
  class_id : Nat
  conf : Nat
  x1 : Int
  y1 : Int
  x2 : Int
  y2 : Int
deriving DecidableEq, Repr

/-- An RGB color triple, as the sources pass to PIL / cv2. -/
abbrev Color := Nat × Nat × Nat

/-- A drawing primitive emitted by the annotators: an (outlined or filled)
rectangle with a stroke width, or a text string at a position. -/
inductive DrawCmd where
  | rect (x1 y1 x2 y2 : Int) (color : Color) (filled : Bool) (width : Nat)
  | text (x y : Int) (s : String) (color : Color)
deriving DecidableEq, Repr

/-- Association-list lookup, the model of Python `dict.get` /
`dict[...]` on the literal tables of the sources. -/
def lookupA {α β : Type} [DecidableEq α] : List (α × β) → α → Option β
  | [], _ => none
  | (k, v) :: rest, key => if k = key then some v else lookupA rest key

/-- Boolean membership in a list of keys. -/
def memKey (k : String) : List String → Bool
  | [] => false
  | x :: xs => (x = k) || memKey k xs

/-- `m[k] = m.get(k, 0) + 1` on a Python dict: update the entry in place
when the key is present, append it at the end (insertion order) otherwise. -/
def assocIncr (k : String) : List (String × Nat) → List (String × Nat)
  | [] => [(k, 1)]
  | (k2, v) :: rest => if k2 = k then (k2, v + 1) :: rest else (k2, v) :: assocIncr k rest

/-- `detections[k] += 1` guarded by `if k in detections`: update the entry
in place when present, do nothing otherwise (app.py line 118–119). -/
def incrIfPresent (k : String) : List (String × Nat) → List (String × Nat)
  | [] => []
  | (k2, v) :: rest => if k2 = k then (k2, v + 1) :: rest else (k2, v) :: incrIfPresent k rest

/-- `sum(counts.values())`. -/
def sumCounts (m : List (String × Nat)) : Nat :=
  (m.map Prod.snd).sum

/-- The text of Python `f"{conf:.2f}"` for a score held in hundredths. -/
def fmt2 (c : Nat) : String :=
  toString (c / 100) ++ "." ++ (if c % 100 < 10 then "0" else "") ++ toString (c % 100)

/-- Python `str.lower`, character by character (the labels it is applied
to are plain ASCII). -/
def lowerStr (s : String) : String :=
  String.mk (s.data.map Char.toLower)

namespace StreamlitApp

/-- `CLASES_INTERES` of streamlit_app.py lines 26–33: COCO id to Spanish
display name. -/
def CLASES_INTERES : List (Nat × String) :=
  [(2, "Carros"), (3, "Motos"), (5, "Autobuses"), (7, "Camiones"),
   (0, "Personas"), (9, "Semáforos")]

/-- `colors` of streamlit_app.py lines 88–95: COCO id to BGR color. -/
def colors : List (Nat × Color) :=
  [(0, (0, 255, 0)), (2, (255, 0, 0)), (3, (255, 165, 0)),
   (5, (255, 0, 255)), (7, (0, 255, 255)), (9, (0, 0, 255))]

/-- The body of the counting half of the loop at streamlit_app.py lines
66–69: only classes in `CLASES_INTERES` are counted. -/
def countStep (m : List (String × Nat)) (b : RawDetection) : List (String × Nat) :=
  match lookupA CLASES_INTERES b.class_id with
  | some nm => assocIncr nm m
  | none => m

/-- `detections_count` (streamlit_app.py lines 58–69): an
insertion-ordered dict that starts empty. -/
def detections_count (boxes : List RawDetection) : List (String × Nat) :=
  boxes.foldl countStep []

/-- The registry classes of a detection sequence in order of first
occurrence (only for stating order properties of `detections_count`). -/
def seenStep (acc : List String) (b : RawDetection) : List String :=
  match lookupA CLASES_INTERES b.class_id with
  | some nm => if memKey nm acc then acc else acc ++ [nm]
  | none => acc

/-- The first-occurrence order of registry display names in the input. -/
def firstSeen (boxes : List RawDetection) : List String :=
  boxes.foldl seenStep []

/-- One entry of `boxes_data` (streamlit_app.py lines 74–79). -/
structure BoxInfo where
  x1 : Int
  y1 : Int
  x2 : Int
  y2 : Int
  class_name : String
  conf : Nat
  class_id : Nat
deriving DecidableEq, Repr

/-- `boxes_data` (streamlit_app.py lines 59–79): every box is appended,
whether or not its class id is in `CLASES_INTERES`; `class_name` comes
from the model's own vocabulary `result.names`, passed here as `names`. -/
def boxes_data (names : Nat → String) (boxes : List RawDetection) : List BoxInfo :=
  boxes.map fun b => ⟨b.x1, b.y1, b.x2, b.y2, names b.class_id, b.conf, b.class_id⟩

/-- Stable insertion of one entry into a list already sorted by
descending count: skip entries with a strictly larger count, so that
entries with equal counts keep their original relative order
(Python's `sorted` is stable). -/
def insertDesc (x : String × Nat) : List (String × Nat) → List (String × Nat)
  | [] => [x]
  | y :: ys => if x.2 < y.2 then y :: insertDesc x ys else x :: y :: ys

/-- `sorted(detections_count.items(), key=lambda x: x[1], reverse=True)`
(streamlit_app.py lines 160 and 165): a stable sort by descending count. -/
def sortByCountDesc : List (String × Nat) → List (String × Nat)
  | [] => []
  | x :: xs => insertDesc x (sortByCountDesc xs)

/-- `resumen` (streamlit_app.py lines 164–166): the non-empty summary
line, entries in descending-count order, no plural handling. -/
def resumen (m : List (String × Nat)) : String :=
  "Detectados: " ++ String.intercalate ", "
    ((sortByCountDesc m).map fun p => toString p.2 ++ " " ++ p.1)

/-- The user-visible summary of streamlit_app.py lines 153–171: `resumen`
when `detections_count` is non-empty, the warning text otherwise. -/
def summaryMessage (m : List (String × Nat)) : String :=
  if m.isEmpty then "No se detectaron objetos de interés en la imagen" else resumen m

/-- `colors.get(class_id, (200, 200, 200))` (streamlit_app.py line 104). -/
def colorFor (id : Nat) : Color :=
  (lookupA colors id).getD (200, 200, 200)

/-- The drawing commands of one iteration of the loop at streamlit_app.py
lines 97–134: an outlined rectangle, a filled label-background rectangle
(whose extent depends on `cv2.getTextSize`, passed as `textSize`), and
the white label text at `(x1 + 2, y1 - 2)`. -/
def boxCmds (textSize : String → Nat × Nat) (b : BoxInfo) : List DrawCmd :=
  let label := b.class_name ++ " " ++ fmt2 b.conf
  let c := colorFor b.class_id
  let ts := textSize label
  [DrawCmd.rect b.x1 b.y1 b.x2 b.y2 c false 2,
   DrawCmd.rect b.x1 (b.y1 - (ts.2 : Int) - 4) (b.x1 + (ts.1 : Int) + 4) b.y1 c true 0,
   DrawCmd.text (b.x1 + 2) (b.y1 - 2) label (255, 255, 255)]

/-- The annotation pipeline of streamlit_app.py lines 86–138: convert a
copy of the input to BGR, draw every box's commands on it in order, and
convert back to RGB. `drawPrim` is the external cv2 raster primitive. -/
def annotate (drawPrim : Image → DrawCmd → Image) (textSize : String → Nat × Nat)
    (img : Image) (bs : List BoxInfo) : Image :=
  cvtColor (bs.foldl (fun acc b => (boxCmds textSize b).foldl drawPrim acc) (cvtColor img))

end StreamlitApp

namespace App

/-- `COLORS` of app.py lines 52–58: display name to color. Note that
`"motorbike"` has no entry. -/
def COLORS : List (String × Color) :=
  [("car", (0, 255, 0)), ("person", (255, 0, 0)), ("traffic light", (0, 165, 255)),
   ("bus", (0, 255, 255)), ("truck", (128, 0, 255))]

/-- `CLASS_NAMES` of app.py lines 61–68: COCO id to display name. -/
def CLASS_NAMES : List (Nat × String) :=
  [(2, "car"), (3, "motorbike"), (5, "bus"), (7, "truck"),
   (0, "person"), (9, "traffic light")]

/-- `CLASS_NAMES.get(class_id, f"class_{class_id}")` (app.py line 117). -/
def className (class_id : Nat) : String :=
  match lookupA CLASS_NAMES class_id with
  | some nm => nm
  | none => "class_" ++ toString class_id

/-- The `detections` dict as initialized at app.py lines 96–103: six
fixed keys, all zero, in this order. -/
def detections0 : List (String × Nat) :=
  [("car", 0), ("person", 0), ("traffic light", 0), ("bus", 0),
   ("truck", 0), ("motorbike", 0)]

/-- The body of the counting half of `draw_detections` (app.py lines
116–119): increment a key only when the box's class name is already in
the dict. -/
def countStep (m : List (String × Nat)) (b : RawDetection) : List (String × Nat) :=
  incrIfPresent (className b.class_id) m

/-- The counting half of `draw_detections` (app.py lines 96–119): start
from the six fixed keys and fold the counting step over the boxes. -/
def draw_detections_counts (boxes : List RawDetection) : List (String × Nat) :=
  boxes.foldl countStep detections0

/-- `detected_items` (app.py lines 208–212): one `"{count} {label.lower()}"`
entry per counts key with positive count, in the counts-dict order,
joined by `", "`. -/
def detected_items (m : List (String × Nat)) : String :=
  String.intercalate ", "
    ((m.filter fun p => decide (0 < p.2)).map fun p => toString p.2 ++ " " ++ lowerStr p.1)

/-- `summary` (app.py lines 207–217): `total = sum(detections.values())`;
the positive branch runs when the joined item string is non-empty
(Python truthiness of `detected_items`), the negative message otherwise. -/
def summary (m : List (String × Nat)) : String :=
  if detected_items m = "" then "**Resumen:** No se detectaron objetos en la imagen"
  else
    "**Resumen:** Detectados " ++ toString (sumCounts m) ++ " objetos - " ++ detected_items m

/-- `COLORS.get(class_name, (255, 255, 255))` (app.py line 122). -/
def colorFor (nm : String) : Color :=
  (lookupA COLORS nm).getD (255, 255, 255)

/-- The drawing commands of one iteration of the loop at app.py lines
110–129: one outlined rectangle of width 2 and one text label
`f"{class_name} {conf:.2f}"` at `(x1, y1 - 10)`, both in the class color. -/
def boxCmds (b : RawDetection) : List DrawCmd :=
  let nm := className b.class_id
  let c := colorFor nm
  [DrawCmd.rect b.x1 b.y1 b.x2 b.y2 c false 2,
   DrawCmd.text b.x1 (b.y1 - 10) (nm ++ " " ++ fmt2 b.conf) c]

/-- A heap of image buffers; `img_draw = image.copy()` allocates a fresh
buffer at the end, and all drawing writes there. -/
abbrev Heap := List Image

/-- Read a buffer. -/
def getBuf (h : Heap) (i : Nat) : Image :=
  h.getD i []

/-- Overwrite a buffer. -/
def setBuf (h : Heap) (i : Nat) (img : Image) : Heap :=
  h.set i img

/-- Buffer-level embedding of `draw_detections` (app.py lines 91–131):
copy the input buffer, replay every box's drawing commands on the copy
(`drawPrim` is the external PIL raster primitive), and return the heap,
the id of the copy, and the counts dict. -/
def draw_detections (drawPrim : Image → DrawCmd → Image) (h : Heap) (imgId : Nat)
    (boxes : List RawDetection) : Heap × Nat × List (String × Nat) :=
  let copyId := h.length
  let h1 := h ++ [getBuf h imgId]
  let h2 := boxes.foldl
    (fun hAcc b => setBuf hAcc copyId ((boxCmds b).foldl drawPrim (getBuf hAcc copyId))) h1
  (h2, copyId, draw_detections_counts boxes)

end App

/-- Modelled from the spec: the summary format §4.5 / C4 claims —
entries `"{count} {name}{plural-suffix}"` in the order of the counts
mapping, suffix `"s"` exactly when the count is not 1, joined by commas
after `"Detected: "`; an empty mapping announces that no objects were
detected. Stated only to be compared with the source's `resumen`. -/
def claimedSummary (m : List (String × Nat)) : String :=
  if m.isEmpty then "No objects detected"
  else
    "Detected: " ++ String.intercalate ", "
      (m.map fun p => toString p.2 ++ " " ++ p.1 ++ (if p.2 = 1 then "" else "s"))

/-- Is this command an outlined (non-filled) rectangle? -/
def isOutlinedRect : DrawCmd → Bool
  | .rect _ _ _ _ _ filled _ => !filled
  | _ => false

/-- Is this command a text label? -/
def isTextCmd : DrawCmd → Bool
  | .text _ _ _ _ => true
  | _ => false

/-- Do all text labels of the command list sit strictly above `ytop`? -/
def textsAbove (l : List DrawCmd) (ytop : Int) : Bool :=
  l.all fun c =>
    match c with
    | .text _ y _ _ => y < ytop
    | _ => true

/-- The colors of the outlined rectangles of a command list, in order. -/
def outlinedColors (l : List DrawCmd) : List Color :=
  (l.filter isOutlinedRect).filterMap fun c =>
    match c with
    | .rect _ _ _ _ col _ _ => some col
    | _ => none

/-! ### Helper lemmas -/

theorem map_fst_assocIncr (k : String) (m : List (String × Nat)) :
    (assocIncr k m).map Prod.fst =
      if memKey k (m.map Prod.fst) then m.map Prod.fst
      else m.map Prod.fst ++ [k] := by
  induction m with
  | nil => simp [assocIncr, memKey]
  | cons p rest ih =>
    obtain ⟨k2, v⟩ := p
    by_cases hk : k2 = k
    · simp [assocIncr, memKey, hk]
    · simp only [assocIncr, if_neg hk, List.map_cons, memKey, decide_eq_true_eq]
      simp only [if_neg hk, Bool.false_or, ih]
      by_cases hm : memKey k (rest.map Prod.fst) = true
      · simp [hm, hk]
      · simp [hm, hk]

theorem sumCounts_assocIncr (k : String) (m : List (String × Nat)) :
    sumCounts (assocIncr k m) = sumCounts m + 1 := by
  induction m with
  | nil => simp [assocIncr, sumCounts]
  | cons p rest ih =>
    obtain ⟨k2, v⟩ := p
    by_cases hk : k2 = k
    · simp [assocIncr, hk, sumCounts]
      omega
    · simp [assocIncr, hk, sumCounts] at *
      omega

theorem map_fst_incrIfPresent (k : String) (m : List (String × Nat)) :
    (incrIfPresent k m).map Prod.fst = m.map Prod.fst := by
  induction m with
  | nil => rfl
  | cons p rest ih =>
    obtain ⟨k2, v⟩ := p
    by_cases hk : k2 = k <;> simp [incrIfPresent, hk, ih]

theorem map_fst_countStep (m : List (String × Nat)) (b : RawDetection) :
    (StreamlitApp.countStep m b).map Prod.fst =
      StreamlitApp.seenStep (m.map Prod.fst) b := by
  unfold StreamlitApp.countStep StreamlitApp.seenStep
  cases h : lookupA StreamlitApp.CLASES_INTERES b.class_id with
  | none => rfl
  | some nm => simp [map_fst_assocIncr]

theorem map_fst_foldl_countStep (boxes : List RawDetection) :
    ∀ m : List (String × Nat),
      ((boxes.foldl StreamlitApp.countStep m).map Prod.fst) =
        boxes.foldl StreamlitApp.seenStep (m.map Prod.fst) := by
  induction boxes with
  | nil => intro m; rfl
  | cons b rest ih =>
    intro m
    simp only [List.foldl_cons, ih, map_fst_countStep]

theorem sumCounts_foldl_countStep (boxes : List RawDetection) :
    ∀ m : List (String × Nat),
      sumCounts (boxes.foldl StreamlitApp.countStep m) =
        sumCounts m +
          (boxes.filter fun b =>
            (lookupA StreamlitApp.CLASES_INTERES b.class_id).isSome).length := by
  induction boxes with
  | nil => intro m; simp
  | cons b rest ih =>
    intro m
    simp only [List.foldl_cons, List.filter_cons, ih]
    unfold StreamlitApp.countStep
    cases h : lookupA StreamlitApp.CLASES_INTERES b.class_id with
    | none => simp [h]
    | some nm =>
      simp [h, sumCounts_assocIncr]
      omega

theorem map_fst_foldl_appStep (boxes : List RawDetection) :
    ∀ m : List (String × Nat),
      ((boxes.foldl App.countStep m).map Prod.fst) = m.map Prod.fst := by
  induction boxes with
  | nil => intro m; rfl
  | cons b rest ih =>
    intro m
    simp only [List.foldl_cons, ih, App.countStep, map_fst_incrIfPresent]

theorem perm_insertDesc (x : String × Nat) (l : List (String × Nat)) :
    List.Perm (StreamlitApp.insertDesc x l) (x :: l) := by
  induction l with
  | nil => exact List.Perm.refl _
  | cons y ys ih =>
    by_cases h : x.2 < y.2
    · simp only [StreamlitApp.insertDesc, if_pos h]
      exact (ih.cons y).trans (List.Perm.swap x y ys)
    · simp only [StreamlitApp.insertDesc, if_neg h]
      exact List.Perm.refl _

theorem perm_sortByCountDesc (l : List (String × Nat)) :
    List.Perm (StreamlitApp.sortByCountDesc l) l := by
  induction l with
  | nil => exact List.Perm.refl _
  | cons x xs ih =>
    exact (perm_insertDesc x (StreamlitApp.sortByCountDesc xs)).trans (ih.cons x)

theorem pairwise_insertDesc (x : String × Nat) (l : List (String × Nat))
    (hl : l.Pairwise (fun a b => b.2 ≤ a.2)) :
    (StreamlitApp.insertDesc x l).Pairwise (fun a b => b.2 ≤ a.2) := by
  induction l with
  | nil => simp [StreamlitApp.insertDesc]
  | cons y ys ih =>
    rw [List.pairwise_cons] at hl
    by_cases h : x.2 < y.2
    · simp only [StreamlitApp.insertDesc, if_pos h]
      rw [List.pairwise_cons]
      refine ⟨fun z hz => ?_, ih hl.2⟩
      rcases List.mem_cons.mp ((perm_insertDesc x ys).mem_iff.mp hz) with rfl | hz2
      · exact Nat.le_of_lt h
      · exact hl.1 z hz2
    · simp only [StreamlitApp.insertDesc, if_neg h]
      rw [List.pairwise_cons]
      refine ⟨fun z hz => ?_, List.pairwise_cons.mpr hl⟩
      have hxy : y.2 ≤ x.2 := Nat.le_of_not_lt h
      rcases List.mem_cons.mp hz with rfl | hz2
      · exact hxy
      · exact le_trans (hl.1 z hz2) hxy

theorem pairwise_sortByCountDesc (l : List (String × Nat)) :
    (StreamlitApp.sortByCountDesc l).Pairwise (fun a b => b.2 ≤ a.2) := by
  induction l with
  | nil => simp [StreamlitApp.sortByCountDesc]
  | cons x xs ih => exact pairwise_insertDesc x _ ih

theorem swapRB_swapRB (p : Pixel) : p.swapRB.swapRB = p := rfl

theorem mapRow_swapRB (row : List Pixel) :
    (row.map Pixel.swapRB).map Pixel.swapRB = row := by
  induction row with
  | nil => rfl
  | cons p ps ih => simp only [List.map_cons, swapRB_swapRB, ih]

theorem cvtColor_cvtColor (img : Image) : cvtColor (cvtColor img) = img := by
  unfold cvtColor
  induction img with
  | nil => rfl
  | cons row rows ih => simp only [List.map_cons, mapRow_swapRB, ih]

theorem getBuf_setBuf_ne (h : App.Heap) (i j : Nat) (img : Image) (hij : i ≠ j) :
    App.getBuf (App.setBuf h j img) i = App.getBuf h i := by
  simp [App.getBuf, App.setBuf, List.getD_eq_getElem?_getD,
    List.getElem?_set_ne (fun he => hij he.symm)]

theorem getBuf_append_lt (h : App.Heap) (x : Image) (i : Nat) (hi : i < h.length) :
    App.getBuf (h ++ [x]) i = App.getBuf h i := by
  simp [App.getBuf, List.getD_eq_getElem?_getD, List.getElem?_append_left hi]

theorem getBuf_append_len (h : App.Heap) (x : Image) :
    App.getBuf (h ++ [x]) h.length = x := by
  simp [App.getBuf, List.getD_eq_getElem?_getD]

theorem memKey_iff (k : String) (l : List String) : memKey k l = true ↔ k ∈ l := by
  induction l with
  | nil => simp [memKey]
  | cons x xs ih =>
    simp only [memKey, Bool.or_eq_true, decide_eq_true_eq, ih, List.mem_cons]
    constructor
    · rintro (rfl | h2)
      · exact Or.inl rfl
      · exact Or.inr h2
    · rintro (rfl | h2)
      · exact Or.inl rfl
      · exact Or.inr h2

theorem lookupA_mem_values {α β : Type} [DecidableEq α] (l : List (α × β)) (key : α) (v : β)
    (h : lookupA l key = some v) : v ∈ l.map Prod.snd := by
  induction l with
  | nil => simp [lookupA] at h
  | cons p rest ih =>
    obtain ⟨k2, v2⟩ := p
    by_cases hk : k2 = key
    · simp only [lookupA, if_pos hk] at h
      injection h with h2
      simp [h2]
    · simp only [lookupA, if_neg hk] at h
      simp [ih h]

theorem all_registry_foldl_seenStep (boxes : List RawDetection) :
    ∀ acc : List String,
      (acc.all fun k => memKey k (StreamlitApp.CLASES_INTERES.map Prod.snd)) = true →
      ((boxes.foldl StreamlitApp.seenStep acc).all
        fun k => memKey k (StreamlitApp.CLASES_INTERES.map Prod.snd)) = true := by
  induction boxes with
  | nil => intro acc h; exact h
  | cons b rest ih =>
    intro acc h
    simp only [List.foldl_cons]
    apply ih
    unfold StreamlitApp.seenStep
    cases hl : lookupA StreamlitApp.CLASES_INTERES b.class_id with
    | none => exact h
    | some nm =>
      dsimp only
      by_cases hm : memKey nm acc = true
      · rw [if_pos (by simp [hm])]
        exact h
      · rw [if_neg (by simp [hm]), List.all_append]
        simp [h, (memKey_iff _ _).mpr (lookupA_mem_values _ _ _ hl)]

theorem getBuf_foldl_draw (drawPrim : Image → DrawCmd → Image)
    (boxes : List RawDetection) (copyId imgId : Nat) (hne : imgId ≠ copyId) :
    ∀ hAcc : App.Heap,
      App.getBuf
        (boxes.foldl
          (fun hAcc b =>
            App.setBuf hAcc copyId
              ((App.boxCmds b).foldl drawPrim (App.getBuf hAcc copyId)))
          hAcc) imgId = App.getBuf hAcc imgId := by
  induction boxes with
  | nil => intro hAcc; rfl
  | cons b rest ih =>
    intro hAcc
    simp only [List.foldl_cons, ih, getBuf_setBuf_ne _ _ _ _ hne]

/-! ### Claim theorems -/

/-- Claim C1, counterexample: the raw detection with class id 999 (and
confidence 0.99) is not in the Class Registry, yet `boxes_data` — the
details list of streamlit_app.py — contains it: the append at lines
72–79 sits outside the registry check at lines 67–69. -/
theorem C1_cex_unfiltered_detail :
    lookupA StreamlitApp.CLASES_INTERES 999 = none
    ∧ (StreamlitApp.boxes_data (fun _ => "x") [⟨999, 99, 0, 0, 5, 5⟩]).map
        StreamlitApp.BoxInfo.class_id = [999] := by
  exact ⟨by decide, by decide⟩

/-- Claim C1, amended: every key of the counts mapping is a registry
display name, but the details list keeps every raw detection — one entry
per input box, registry-filtered or not. -/
theorem C1_counts_keys_in_registry :
    ∀ (names : Nat → String) (boxes : List RawDetection),
      ((StreamlitApp.detections_count boxes).map Prod.fst).all
        (fun k => memKey k (StreamlitApp.CLASES_INTERES.map Prod.snd)) = true
      ∧ (StreamlitApp.boxes_data names boxes).length = boxes.length := by
  intro names boxes
  constructor
  · rw [StreamlitApp.detections_count, map_fst_foldl_countStep]
    exact all_registry_foldl_seenStep boxes [] (by decide)
  · simp [StreamlitApp.boxes_data]

/-- Claim C2, counterexample: one raw detection of class 999 gives a
counts mapping summing to 0 while the details list `boxes_data` has
length 1, so the claimed equality fails. -/
theorem C2_cex_sum_ne_len :
    sumCounts (StreamlitApp.detections_count [⟨999, 99, 0, 0, 5, 5⟩]) = 0
    ∧ (StreamlitApp.boxes_data (fun _ => "x") [⟨999, 99, 0, 0, 5, 5⟩]).length = 1
    ∧ sumCounts (StreamlitApp.detections_count [⟨999, 99, 0, 0, 5, 5⟩]) ≠
        (StreamlitApp.boxes_data (fun _ => "x") [⟨999, 99, 0, 0, 5, 5⟩]).length := by
  exact ⟨by decide, by decide, by decide⟩

/-- Claim C2, amended: the counts values sum to the number of input
detections whose class id is in the Class Registry; this is at most the
length of the details list, with equality exactly when no detection was
registry-filtered. -/
theorem C2_sum_counts_filtered :
    ∀ (names : Nat → String) (boxes : List RawDetection),
      sumCounts (StreamlitApp.detections_count boxes) =
        (boxes.filter fun b =>
          (lookupA StreamlitApp.CLASES_INTERES b.class_id).isSome).length
      ∧ sumCounts (StreamlitApp.detections_count boxes) ≤
          (StreamlitApp.boxes_data names boxes).length := by
  intro names boxes
  have hsum : sumCounts (StreamlitApp.detections_count boxes) =
      (boxes.filter fun b =>
        (lookupA StreamlitApp.CLASES_INTERES b.class_id).isSome).length := by
    rw [StreamlitApp.detections_count, sumCounts_foldl_countStep]
    simp [sumCounts]
  refine ⟨hsum, ?_⟩
  rw [hsum]
  simp only [StreamlitApp.boxes_data, List.length_map]
  exact List.length_filter_le _ boxes

/-- Claim C3, counterexample: for the input classes (2, 0, 0) the counts
keys are in first-occurrence order `["Carros", "Personas"]`, but the
display loop at streamlit_app.py lines 160–165 sorts by descending
count, showing `["Personas", "Carros"]` — the counts order does not
govern the display order. -/
theorem C3_cex_display_not_insertion_order :
    (StreamlitApp.detections_count
      [⟨2, 50, 0, 0, 1, 1⟩, ⟨0, 50, 0, 0, 1, 1⟩, ⟨0, 60, 0, 0, 1, 1⟩]).map Prod.fst =
      ["Carros", "Personas"]
    ∧ (StreamlitApp.sortByCountDesc
        (StreamlitApp.detections_count
          [⟨2, 50, 0, 0, 1, 1⟩, ⟨0, 50, 0, 0, 1, 1⟩, ⟨0, 60, 0, 0, 1, 1⟩])).map Prod.fst =
      ["Personas", "Carros"] := by
  exact ⟨by decide, by decide⟩

/-- Claim C3, amended: the counts keys do appear in first-occurrence
order of their registry class, but the later per-class display is
ordered by descending count (a stable permutation of the counts
mapping), not by the counts order. -/
theorem C3_keys_first_seen_display_sorted :
    ∀ boxes : List RawDetection,
      (StreamlitApp.detections_count boxes).map Prod.fst = StreamlitApp.firstSeen boxes
      ∧ List.Perm (StreamlitApp.sortByCountDesc (StreamlitApp.detections_count boxes))
          (StreamlitApp.detections_count boxes)
      ∧ (StreamlitApp.sortByCountDesc (StreamlitApp.detections_count boxes)).Pairwise
          (fun a b => b.2 ≤ a.2) := by
  intro boxes
  refine ⟨?_, perm_sortByCountDesc _, pairwise_sortByCountDesc _⟩
  rw [StreamlitApp.detections_count, StreamlitApp.firstSeen, map_fst_foldl_countStep]
  rfl

/-- Claim C4, counterexample: for the counts mapping
`[("Carros", 1), ("Personas", 3)]` the program's summary is
`"Detectados: 3 Personas, 1 Carros"` — descending-count order and no
plural suffix — while the claimed format would give
`"Detected: 1 Carros, 3 Personass"` (counts order, suffix for count 3). -/
theorem C4_cex_summary_format :
    StreamlitApp.summaryMessage [("Carros", 1), ("Personas", 3)] =
      "Detectados: 3 Personas, 1 Carros"
    ∧ claimedSummary [("Carros", 1), ("Personas", 3)] =
      "Detected: 1 Carros, 3 Personass"
    ∧ StreamlitApp.summaryMessage [("Carros", 1), ("Personas", 3)] ≠
        claimedSummary [("Carros", 1), ("Personas", 3)] := by
  exact ⟨by decide, by decide, by decide⟩

/-- Claim C4, amended: in streamlit_app.py a non-empty counts mapping
yields `"Detectados: "` followed by `"{count} {name}"` entries joined by
`", "` in descending-count order (a stable permutation of the counts
mapping), and an empty mapping yields the no-objects-of-interest
warning; in app.py the summary is `"**Resumen:** Detectados {total}
objetos - "` followed by `"{count} {name}"` entries for the classes with
positive count, in the counts-dict key order (a subsequence of the key
order), and the all-zero dict of an empty detector result yields
`"**Resumen:** No se detectaron objetos en la imagen"`. Neither variant
ever appends a plural suffix. -/
theorem C4_summary_sorted_no_plural :
    ∀ m : List (String × Nat),
      (m.isEmpty = false →
        StreamlitApp.summaryMessage m =
          "Detectados: " ++ String.intercalate ", "
            ((StreamlitApp.sortByCountDesc m).map fun p => toString p.2 ++ " " ++ p.1))
      ∧ List.Perm (StreamlitApp.sortByCountDesc m) m
      ∧ StreamlitApp.summaryMessage [] =
          "No se detectaron objetos de interés en la imagen"
      ∧ (App.detected_items m ≠ "" →
          App.summary m =
            "**Resumen:** Detectados " ++ toString (sumCounts m) ++ " objetos - " ++
              App.detected_items m)
      ∧ ((m.filter fun p => decide (0 < p.2)).map Prod.fst).Sublist (m.map Prod.fst)
      ∧ App.summary (App.draw_detections_counts []) =
          "**Resumen:** No se detectaron objetos en la imagen" := by
  intro m
  refine ⟨fun h => ?_, perm_sortByCountDesc m, by decide, fun h => ?_,
    List.Sublist.map Prod.fst (List.filter_sublist m), by decide⟩
  · rw [StreamlitApp.summaryMessage, if_neg (by simp [h])]
    rfl
  · rw [App.summary, if_neg h]

/-- Claim C4, witness for the amended statement at concrete counts
mappings of both variants. -/
theorem C4_witness :
    StreamlitApp.summaryMessage [("Carros", 2), ("Personas", 5)] =
      "Detectados: 5 Personas, 2 Carros"
    ∧ App.summary [("car", 2), ("person", 0)] =
      "**Resumen:** Detectados 2 objetos - 2 car" := by
  constructor
  · have h := (C4_summary_sorted_no_plural [("Carros", 2), ("Personas", 5)]).1 (by decide)
    rw [h]
    decide
  · have h :=
      (C4_summary_sorted_no_plural [("car", 2), ("person", 0)]).2.2.2.1 (by decide)
    rw [h]
    decide

/-- Claim C5, counterexample: in the app.py variant, aggregating zero
raw detections yields the fixed six-key counts dict of lines 96–103 —
a non-empty counts mapping, contradicting "empty counts mapping". -/
theorem C5_cex_app_counts_nonempty :
    App.draw_detections_counts [] = App.detections0
    ∧ App.draw_detections_counts [] ≠ [] := by
  exact ⟨by decide, by decide⟩

/-- Claim C5, amended: aggregating an empty detection sequence raises no
error; in streamlit_app.py it yields empty counts and an empty details
list, while in app.py it yields the fixed six-key counts dict with every
count zero (app.py builds no details list). -/
theorem C5_empty_input :
    ∀ names : Nat → String,
      StreamlitApp.detections_count [] = []
      ∧ StreamlitApp.boxes_data names [] = []
      ∧ App.draw_detections_counts [] = App.detections0
      ∧ (App.detections0.all fun p => p.2 = 0) = true := by
  intro names
  exact ⟨rfl, rfl, by decide, by decide⟩

/-- Claim C6, counterexample: the detection with class id 999 survives
no registry filter, yet app.py's loop still draws an outlined rectangle
for it — in the fallback color (255, 255, 255), which is no Class
Registry color — followed by a label naming the synthetic class
`"class_999"`; so boxes are not drawn only for registry-filtered
detections. -/
theorem C6_cex_nonregistry_drawn :
    lookupA App.CLASS_NAMES 999 = none
    ∧ App.boxCmds ⟨999, 90, 0, 0, 5, 5⟩ =
        [DrawCmd.rect 0 0 5 5 (255, 255, 255) false 2,
         DrawCmd.text 0 (-10) "class_999 0.90" (255, 255, 255)] := by
  exact ⟨by decide, by decide⟩

/-- Claim C6, amended: for every detection record — registry-filtered or
not — each variant emits exactly one outlined rectangle and exactly one
text label `"{name} {confidence:.2f}"` whose y-position lies strictly
above the box's top edge; the rectangle color is the registry color of
the class when present and a fallback color (white in app.py, gray in
streamlit_app.py) otherwise, as computed by `colorFor`. -/
theorem C6_one_rect_one_label :
    ∀ (ts : String → Nat × Nat) (b : RawDetection) (bi : StreamlitApp.BoxInfo),
      (App.boxCmds b).countP isOutlinedRect = 1
      ∧ (App.boxCmds b).countP isTextCmd = 1
      ∧ textsAbove (App.boxCmds b) b.y1 = true
      ∧ outlinedColors (App.boxCmds b) = [App.colorFor (App.className b.class_id)]
      ∧ (StreamlitApp.boxCmds ts bi).countP isOutlinedRect = 1
      ∧ (StreamlitApp.boxCmds ts bi).countP isTextCmd = 1
      ∧ textsAbove (StreamlitApp.boxCmds ts bi) bi.y1 = true
      ∧ outlinedColors (StreamlitApp.boxCmds ts bi) = [StreamlitApp.colorFor bi.class_id] := by
  intro ts b bi
  refine ⟨?_, ?_, ?_, ?_, ?_, ?_, ?_, ?_⟩
  · simp [App.boxCmds, List.countP, List.countP.go, isOutlinedRect]
  · simp [App.boxCmds, List.countP, List.countP.go, isTextCmd]
  · simp [textsAbove, App.boxCmds]
  · simp [App.boxCmds, outlinedColors, isOutlinedRect]
  · simp [StreamlitApp.boxCmds, List.countP, List.countP.go, isOutlinedRect]
  · simp [StreamlitApp.boxCmds, List.countP, List.countP.go, isTextCmd]
  · simp [textsAbove, StreamlitApp.boxCmds]
  · simp [StreamlitApp.boxCmds, outlinedColors, isOutlinedRect]

/-- Claim C7, counterexample: app.py's registry maps class id 3 to the
display name `"motorbike"`, but the color table `COLORS` of lines 52–58
has no entry for it — the registry lookup is not total on both
attributes. -/
theorem C7_cex_motorbike_no_color :
    lookupA App.CLASS_NAMES 3 = some "motorbike"
    ∧ lookupA App.COLORS "motorbike" = none := by
  exact ⟨by decide, by decide⟩

/-- Claim C7, amended: every registry id yields a display name in both
variants; in streamlit_app.py every registry id also has a color, while
in app.py every registry display name except `"motorbike"` has a color
(the annotator falls back to white (255, 255, 255) for it). The tables
are fixed literal constants. -/
theorem C7_registry_totality :
    (StreamlitApp.CLASES_INTERES.all fun p => (lookupA StreamlitApp.colors p.1).isSome) = true
    ∧ (App.CLASS_NAMES.all fun p =>
        decide (p.2 = "motorbike") || (lookupA App.COLORS p.2).isSome) = true
    ∧ App.colorFor "motorbike" = (255, 255, 255) := by
  exact ⟨by decide, by decide, by decide⟩

/-- Claim C8, confirmed: at the buffer level, `draw_detections` copies
the input image into a fresh buffer and replays every drawing command on
the copy, whatever the external raster primitive does — the buffer
holding the input image is unchanged afterward and is distinct from the
returned annotated buffer, so the caller can still display the
pre-annotation image. -/
theorem C8_original_not_mutated :
    ∀ (drawPrim : Image → DrawCmd → Image) (h : App.Heap) (imgId : Nat)
      (boxes : List RawDetection),
      imgId < h.length →
      App.getBuf (App.draw_detections drawPrim h imgId boxes).1 imgId = App.getBuf h imgId
      ∧ (App.draw_detections drawPrim h imgId boxes).2.1 ≠ imgId := by
  intro drawPrim h imgId boxes himg
  have hne : imgId ≠ h.length := by omega
  constructor
  · rw [App.draw_detections]
    dsimp only
    rw [getBuf_foldl_draw drawPrim boxes h.length imgId hne]
    exact getBuf_append_lt h _ imgId himg
  · rw [App.draw_detections]
    dsimp only
    omega

/-- Claim C8, witness: a one-buffer heap with a one-pixel image and an
identity raster primitive, no detections. -/
theorem C8_witness :
    App.getBuf (App.draw_detections (fun img _ => img) [[[⟨1, 2, 3⟩]]] 0 []).1 0 =
      App.getBuf [[[⟨1, 2, 3⟩]]] 0 := by
  exact (C8_original_not_mutated (fun img _ => img) [[[⟨1, 2, 3⟩]]] 0 [] (by decide)).1

/-- Claim C9, confirmed: annotating with zero detail records returns the
input pixels unchanged — in streamlit_app.py the RGB→BGR copy followed
by zero drawing commands and the BGR→RGB conversion is the identity on
pixel content, and in app.py the returned copy buffer holds exactly the
input buffer's image. -/
theorem C9_empty_annotation_id :
    ∀ (drawPrim : Image → DrawCmd → Image) (textSize : String → Nat × Nat)
      (img : Image) (h : App.Heap) (imgId : Nat),
      StreamlitApp.annotate drawPrim textSize img [] = img
      ∧ App.getBuf (App.draw_detections drawPrim h imgId []).1
          (App.draw_detections drawPrim h imgId []).2.1 = App.getBuf h imgId := by
  intro drawPrim textSize img h imgId
  constructor
  · rw [StreamlitApp.annotate]
    simp only [List.foldl_nil]
    exact cvtColor_cvtColor img
  · rw [App.draw_detections]
    dsimp only
    simp only [List.foldl_nil]
    exact getBuf_append_len h _

/-- Claim C10, confirmed: whatever the detector returns, the counts
mapping of app.py's `draw_detections` has exactly the six keys
`car`, `person`, `traffic light`, `bus`, `truck`, `motorbike`, in that
fixed order — keys are never inserted or removed, so zero-count classes
stay present. -/
theorem C10_fixed_six_keys :
    ∀ boxes : List RawDetection,
      (App.draw_detections_counts boxes).map Prod.fst =
        ["car", "person", "traffic light", "bus", "truck", "motorbike"] := by
  intro boxes
  rw [App.draw_detections_counts, map_fst_foldl_appStep]
  rfl

end DeteccionObjetos
